import Mathlib

/-!
Shallow embedding of the Banking Fraud Guard dashboard (src/app.py).

The app is a single-file Streamlit UI: seven optional session fields, six tab
button handlers that each call into third-party libraries, and a PDF report
generator.  Third-party library calls (pdf2image, PIL, skimage SSIM, easyocr,
DeepFace, pandas read_csv, reportlab file output, the regex engine and the
clock) are modelled as fields of an oracle structure Libs, so that every
theorem quantifies over the behaviour of the libraries; the control flow,
threshold logic, session writes and message strings are translated from the
source.  Python floats are modelled as exact rationals; the only place where
IEEE NaN semantics matters (the pandas sample standard deviation of fewer
than two rows) is modelled explicitly by definedness flags, and comparisons
against an undefined (NaN) value are false, as in IEEE.
-/

namespace FG

/-- Raw uploaded bytes, abstract. -/
abbrev Bytes := List ℕ

/-- A decoded image, abstract pixel grid (rows of pixel values). -/
abbrev Img := List (List ℕ)

/-- An uploaded file as Streamlit hands it to the handlers: a file name and
its byte content.  Uploaded-file objects are always truthy in Python, so the
truthiness tests in the source correspond to Option.isSome here. -/
structure Upload where
  name : String
  content : Bytes
deriving DecidableEq

/-- The session record initialised at lines 106-116 of src/app.py: each field
starts as None and is written by exactly one tab. -/
structure SessionState where
  forgery_score : Option ℚ
  signature_score : Option ℚ
  aadhaar_text : Option String
  pan_text : Option String
  face_distance : Option ℚ
  face_verified : Option Bool
  transaction_frauds_count : Option ℕ
deriving DecidableEq

/-- The initial session: every field is None (lines 106-116). -/
def initSession : SessionState :=
  ⟨none, none, none, none, none, none, none⟩

/-- Messages rendered inline by a handler, in order.  Numeric values are
carried unformatted (the source formats them with f-strings); widgets whose
content is irrelevant to the claims (st.image, st.dataframe, st.write of a
dataframe head) are carried as opaque markers. -/
inductive UIMsg where
  | errorMsg : String → UIMsg
  | warningMsg : String → UIMsg
  | successMsg : String → UIMsg
  | writeVal : String → ℚ → UIMsg
  | metricMsg : String → ℕ → UIMsg
  | textArea : String → UIMsg
  | headPreview : UIMsg
  | dataframeMsg : UIMsg
  | imageMsg : UIMsg
  | downloadButton : UIMsg
deriving DecidableEq

/-- Result of running one button handler: the session after the handler, the
inline messages it produced, and the uncaught exception it raised (none when
it returned normally).  Streamlit keeps the session as it was at the point of
a raise. -/
structure TabOut where
  state : SessionState
  msgs : List UIMsg
  exn : Option String
deriving DecidableEq

/-- A parsed CSV as pandas presents it to this program: named numeric
columns.  Only the numeric content of columns matters to the claims. -/
structure Csv where
  cols : List (String × List ℚ)
deriving DecidableEq

/-- Column-name membership, modelling the test amount in df.columns. -/
def Csv.hasCol (df : Csv) (c : String) : Bool :=
  df.cols.any (fun p => p.1 == c)

/-- Column lookup, modelling df indexing by column name. -/
def Csv.getCol (df : Csv) (c : String) : List ℚ :=
  ((df.cols.find? (fun p => p.1 == c)).map (fun p => p.2)).getD []

/-- The dictionary DeepFace.verify returns; the source reads the keys
distance and verified with defaults 0.0 and False via dict.get. -/
structure VerifyRes where
  distance : Option ℚ
  verified : Option Bool
deriving DecidableEq

/-- The third-party libraries and ambient effects the app calls into.  Each
field is one external call site of src/app.py; the handlers below use them
exactly where the source does. -/
structure Libs where
  convert_from_bytes : Bytes → List Img
  image_open : Bytes → Img
  grayResize600 : Img → Img
  grayResize300 : Img → Img
  toRGB : Img → Img
  ssim : Img → Img → ℚ × Img
  readtext : Img → List String
  findAadhaar : String → List String
  findPan : String → List String
  verify : Img → Img → Except String VerifyRes
  read_csv : Bytes → Except String Csv
  savePdf : List String → Except String Unit
  now : String

instance exceptDecEq {ε α : Type} [DecidableEq ε] [DecidableEq α] : DecidableEq (Except ε α) :=
  fun a b =>
    match a, b with
    | .error x, .error y =>
      if h : x = y then isTrue (by rw [h]) else isFalse (by intro c; cases c; exact h rfl)
    | .ok x, .ok y =>
      if h : x = y then isTrue (by rw [h]) else isFalse (by intro c; cases c; exact h rfl)
    | .error _, .ok _ => isFalse (by intro c; cases c)
    | .ok _, .error _ => isFalse (by intro c; cases c)

/-- Python str.lower character by character. -/
def pyLower (s : String) : String := String.mk (s.data.map Char.toLower)

/-- Python str.upper character by character. -/
def pyUpper (s : String) : String := String.mk (s.data.map Char.toUpper)

/-- Python slicing s[:n]: the first n characters (all of s when shorter). -/
def pyTake (s : String) (n : ℕ) : String := String.mk (s.data.take n)

/-- Python replace of the newline character by a space (a single-character
pattern, hence a character map). -/
def pyReplaceNl (s : String) : String :=
  String.mk (s.data.map (fun c => if c = '\n' then ' ' else c))

/-- The test name.lower().endswith(".pdf") from load_image (line 52). -/
def endsWithPdf (s : String) : Bool :=
  ".pdf".data.isSuffixOf (pyLower s).data

/-- load_image (lines 48-56): None input gives None; a name ending in .pdf
(case-insensitively) is converted from bytes and only the first page is kept
(pages with index 0; an empty page list raises IndexError, which this model
returns as an error); any other file is opened as an image. -/
def load_image (L : Libs) : Option Upload → Except String (Option Img)
  | none => .ok none
  | some u =>
    if endsWithPdf u.name then
      match L.convert_from_bytes u.content with
      | [] => .error "IndexError: list index out of range"
      | p :: _ => .ok (some p)
    else
      .ok (some (L.image_open u.content))

/-- The pandas mean of the amount column: sum over count.  Junk value 0 when
the list is empty; definedness is tracked by meanDefined. -/
def sampleMean (xs : List ℚ) : ℚ := xs.sum / xs.length

/-- The pandas sample variance (ddof 1, the default of Series.std): sum of
squared deviations over count minus one.  Junk value when fewer than two
rows; definedness is tracked by stdDefined. -/
def sampleVar (xs : List ℚ) : ℚ :=
  ((xs.map (fun a => (a - sampleMean xs) ^ 2)).sum) / ((xs.length : ℚ) - 1)

/-- The pandas mean is NaN exactly when there are no rows. -/
def meanDefined (xs : List ℚ) : Bool := decide (xs.length ≠ 0)

/-- The pandas sample std (sqrt of sampleVar) is NaN exactly when there are
fewer than two rows (0/0 for one row, empty sum for none). -/
def stdDefined (xs : List ℚ) : Bool := decide (2 ≤ xs.length)

/-- The threshold mean plus 3 times std (line 255) is NaN when either term
is NaN. -/
def thresholdDefined (xs : List ℚ) : Bool := meanDefined xs && stdDefined xs

/-- The row filter amount greater than threshold (line 256).  An IEEE
comparison against a NaN threshold is false.  When the threshold is defined,
std is the nonnegative square root of sampleVar, so the comparison
a gt mean + 3 std is equivalent to the rational, square-root-free form
mean lt a and 9 var lt (a - mean) squared; the lemma flagged_iff_real proves
this equivalence against the real-number threshold. -/
def flagged (xs : List ℚ) (a : ℚ) : Bool :=
  thresholdDefined xs && decide (sampleMean xs < a) &&
    decide (9 * sampleVar xs < (a - sampleMean xs) ^ 2)

/-- The Doc Forgery tab handler (lines 124-149). -/
def docForgery (L : Libs) (s : SessionState) (orig sus : Option Upload) : TabOut :=
  match orig, sus with
  | some o, some u =>
    match load_image L (some o) with
    | .error m => ⟨s, [], some m⟩
    | .ok none => ⟨s, [], some "AttributeError"⟩
    | .ok (some i1) =>
      match load_image L (some u) with
      | .error m => ⟨s, [], some m⟩
      | .ok none => ⟨s, [], some "AttributeError"⟩
      | .ok (some i2) =>
        let p1 := L.grayResize600 i1
        let p2 := L.grayResize600 i2
        let score := (L.ssim p1 p2).1
        ⟨{ s with forgery_score := some score },
          [UIMsg.writeVal "Similarity Score" score] ++
            (if (0.9 : ℚ) < score then [UIMsg.successMsg "No forgery detected."]
             else if (0.6 : ℚ) < score then [UIMsg.warningMsg "Minor differences detected."]
             else [UIMsg.errorMsg "High chance of forgery."]) ++
            [UIMsg.imageMsg],
          none⟩
  | _, _ => ⟨s, [UIMsg.errorMsg "Please upload both files."], none⟩

/-- The Signature tab handler (lines 152-175). -/
def verifySignature (L : Libs) (s : SessionState) (so ss : Option Upload) : TabOut :=
  match so, ss with
  | some o, some u =>
    match load_image L (some o) with
    | .error m => ⟨s, [], some m⟩
    | .ok none => ⟨s, [], some "AttributeError"⟩
    | .ok (some i1) =>
      match load_image L (some u) with
      | .error m => ⟨s, [], some m⟩
      | .ok none => ⟨s, [], some "AttributeError"⟩
      | .ok (some i2) =>
        let p1 := L.grayResize300 i1
        let p2 := L.grayResize300 i2
        let sscore := (L.ssim p1 p2).1
        ⟨{ s with signature_score := some sscore },
          [UIMsg.writeVal "Signature Similarity" sscore] ++
            (if (0.85 : ℚ) < sscore then [UIMsg.successMsg "Signatures appear genuine."]
             else if (0.6 : ℚ) < sscore then [UIMsg.warningMsg "Partial match - suspicious."]
             else [UIMsg.errorMsg "Signatures likely forged."]) ++
            [UIMsg.imageMsg],
          none⟩
  | _, _ => ⟨s, [UIMsg.errorMsg "Upload both signatures."], none⟩

/-- The Aadhaar tab handler (lines 178-195). -/
def extractAadhaar (L : Libs) (s : SessionState) (aad : Option Upload) : TabOut :=
  match aad with
  | none => ⟨s, [UIMsg.errorMsg "Upload Aadhaar file."], none⟩
  | some a =>
    match load_image L (some a) with
    | .error m => ⟨s, [], some m⟩
    | .ok none => ⟨s, [], some "AttributeError"⟩
    | .ok (some i) =>
      let text := String.intercalate " " (L.readtext (L.toRGB i))
      match L.findAadhaar text with
      | f :: _ =>
        ⟨{ s with aadhaar_text := some text },
          [UIMsg.textArea text, UIMsg.successMsg ("Aadhaar-like number found: " ++ f)], none⟩
      | [] =>
        ⟨{ s with aadhaar_text := some text },
          [UIMsg.textArea text, UIMsg.warningMsg "No 12-digit Aadhaar number detected."], none⟩

/-- The PAN tab handler (lines 198-215); the regex search runs on the
uppercased text. -/
def extractPan (L : Libs) (s : SessionState) (pan : Option Upload) : TabOut :=
  match pan with
  | none => ⟨s, [UIMsg.errorMsg "Upload PAN file."], none⟩
  | some p =>
    match load_image L (some p) with
    | .error m => ⟨s, [], some m⟩
    | .ok none => ⟨s, [], some "AttributeError"⟩
    | .ok (some i) =>
      let text := String.intercalate " " (L.readtext (L.toRGB i))
      match L.findPan (pyUpper text) with
      | f :: _ =>
        ⟨{ s with pan_text := some text },
          [UIMsg.textArea text, UIMsg.successMsg ("PAN-like number found: " ++ f)], none⟩
      | [] =>
        ⟨{ s with pan_text := some text },
          [UIMsg.textArea text, UIMsg.warningMsg "PAN number not confidently detected."], none⟩

/-- The KYC tab handler (lines 218-239).  The whole analysis, image loading
included, sits inside a try block whose except shows the error inline. -/
def compareFaces (L : Libs) (s : SessionState) (idf lf : Option Upload) : TabOut :=
  match idf, lf with
  | some a, some b =>
    match load_image L (some a) with
    | .error m => ⟨s, [UIMsg.errorMsg ("Face verification error: " ++ m)], none⟩
    | .ok none => ⟨s, [UIMsg.errorMsg ("Face verification error: AttributeError")], none⟩
    | .ok (some i1) =>
      match load_image L (some b) with
      | .error m => ⟨s, [UIMsg.errorMsg ("Face verification error: " ++ m)], none⟩
      | .ok none => ⟨s, [UIMsg.errorMsg ("Face verification error: AttributeError")], none⟩
      | .ok (some i2) =>
        match L.verify i1 i2 with
        | .error m => ⟨s, [UIMsg.errorMsg ("Face verification error: " ++ m)], none⟩
        | .ok r =>
          let d := r.distance.getD 0
          let v := r.verified.getD false
          ⟨{ s with face_distance := some d, face_verified := some v },
            [UIMsg.writeVal "Distance" d] ++
              (if v then [UIMsg.successMsg "Face match verified."]
               else [UIMsg.errorMsg "Face mismatch."]),
            none⟩
  | _, _ => ⟨s, [UIMsg.errorMsg "Please upload both ID and live photos."], none⟩

/-- The Transactions tab handler (lines 242-262).  The dataframe head is
written before the column check; the fraud filter and count run only when an
amount column exists. -/
def analyzeTransactions (L : Libs) (s : SessionState) (txn : Option Upload) : TabOut :=
  match txn with
  | none => ⟨s, [UIMsg.errorMsg "Upload CSV."], none⟩
  | some u =>
    match L.read_csv u.content with
    | .error m => ⟨s, [UIMsg.errorMsg ("CSV read error: " ++ m)], none⟩
    | .ok df =>
      if df.hasCol "amount" then
        let xs := df.getCol "amount"
        let frauds := xs.filter (fun a => flagged xs a)
        ⟨{ s with transaction_frauds_count := some frauds.length },
          [UIMsg.headPreview, UIMsg.metricMsg "Potential Fraud Transactions" frauds.length] ++
            (if frauds.isEmpty then [] else [UIMsg.dataframeMsg]),
          none⟩
      else
        ⟨s, [UIMsg.headPreview, UIMsg.warningMsg "CSV must have \x27amount\x27 column."], none⟩

/-- The dict handed to generate_report_pdf (lines 274-285): the two free-text
header fields, the seven session fields and the remarks text. -/
structure ReportData where
  customer_name : String
  reference : String
  forgery_score : Option ℚ
  signature_score : Option ℚ
  aadhaar_text : Option String
  pan_text : Option String
  face_distance : Option ℚ
  face_verified : Option Bool
  transaction_frauds_count : Option ℕ
  remarks : String
deriving DecidableEq

/-- A report section value as the rendering loop (lines 71-88) sees it:
None, a string, a float or the fraud count. -/
inductive RVal where
  | noneV : RVal
  | strV : String → RVal
  | numV : ℚ → RVal
  | natV : ℕ → RVal
deriving DecidableEq

/-- Lift an optional float field into a section value. -/
def RVal.ofNum : Option ℚ → RVal
  | none => .noneV
  | some q => .numV q

/-- Lift an optional text field into a section value. -/
def RVal.ofStr : Option String → RVal
  | none => .noneV
  | some s => .strV s

/-- Lift the optional fraud count into a section value. -/
def RVal.ofNat : Option ℕ → RVal
  | none => .noneV
  | some n => .natV n

/-- The string-value line of the rendering loop (line 86): the first 200
characters, newlines replaced by spaces, and three dots appended
unconditionally. -/
def pyStrLine (s : String) : String := pyReplaceNl (pyTake s 200) ++ "..."

/-- One section value line (lines 83-88): Not analyzed for None, the
truncated text for strings, and the printed number otherwise (number
formatting is abstracted by toString). -/
def renderVal : RVal → String
  | .noneV => "Not analyzed"
  | .strV s => pyStrLine s
  | .numV q => toString q
  | .natV n => toString n

/-- The six report sections in the order of the loop at lines 71-78. -/
def sectionPairs (d : ReportData) : List (String × RVal) :=
  [("Document Forgery", RVal.ofNum d.forgery_score),
   ("Signature Verification", RVal.ofNum d.signature_score),
   ("Aadhaar OCR", RVal.ofStr d.aadhaar_text),
   ("PAN OCR", RVal.ofStr d.pan_text),
   ("KYC Face Match", RVal.ofNum d.face_distance),
   ("Transaction Summary", RVal.ofNat d.transaction_frauds_count)]

/-- One section contributes its bold title line then its value line. -/
def renderSection (p : String × RVal) : List String := [p.1, renderVal p.2]

/-- All section lines in loop order. -/
def sectionLines (d : ReportData) : List String :=
  (sectionPairs d).flatMap renderSection

/-- The report header (lines 61-68): the title, the timestamp, and the
customer and reference lines, each drawn only when the text is nonempty
(Python string truthiness). -/
def headerLines (now : String) (d : ReportData) : List String :=
  ["Banking Fraud Guard - Fraud Detection Report", "Generated: " ++ now] ++
    (if d.customer_name == "" then [] else ["Customer: " ++ d.customer_name]) ++
    (if d.reference == "" then [] else ["Ref: " ++ d.reference])

/-- The remarks block (line 96): slices of 90 characters. -/
def chunks90 (s : String) : List String :=
  (List.range ((s.data.length + 89) / 90)).map
    (fun i => String.mk ((s.data.drop (90 * i)).take 90))

/-- generate_report_pdf (lines 58-101) as the ordered list of text lines it
draws: header, the six sections, the Remarks heading and the remarks
slices.  Fonts and coordinates are layout constants and are not modelled. -/
def generate_report_pdf (now : String) (d : ReportData) : List String :=
  headerLines now d ++ sectionLines d ++ ["Remarks"] ++ chunks90 d.remarks

/-- The dict built by the report button (lines 274-285) from the session and
the three text inputs. -/
def mkReportData (s : SessionState) (cust ref remarks : String) : ReportData :=
  ⟨cust, ref, s.forgery_score, s.signature_score, s.aadhaar_text, s.pan_text,
   s.face_distance, s.face_verified, s.transaction_frauds_count, remarks⟩

/-- The report button handler (lines 271-291): build the data dict, run the
PDF generation and file output inside try, and show either the download
button or the inline error.  No session field is written. -/
def generateReport (L : Libs) (s : SessionState) (cust ref remarks : String) : TabOut :=
  match L.savePdf (generate_report_pdf L.now (mkReportData s cust ref remarks)) with
  | .ok _ => ⟨s, [UIMsg.downloadButton], none⟩
  | .error m => ⟨s, [UIMsg.errorMsg ("PDF generation error: " ++ m)], none⟩

/-- A user interaction: one button press with the uploads or texts present in
the widgets at that moment. -/
inductive Event where
  | pressForgery : Option Upload → Option Upload → Event
  | pressSignature : Option Upload → Option Upload → Event
  | pressAadhaar : Option Upload → Event
  | pressPan : Option Upload → Event
  | pressKyc : Option Upload → Option Upload → Event
  | pressTransactions : Option Upload → Event
  | pressReport : String → String → String → Event

/-- Dispatch one event to its handler. -/
def step (L : Libs) (s : SessionState) : Event → TabOut
  | .pressForgery o u => docForgery L s o u
  | .pressSignature o u => verifySignature L s o u
  | .pressAadhaar a => extractAadhaar L s a
  | .pressPan p => extractPan L s p
  | .pressKyc a b => compareFaces L s a b
  | .pressTransactions t => analyzeTransactions L s t
  | .pressReport c r m => generateReport L s c r m

/-- Run a sequence of interactions from a given session. -/
def runFrom (L : Libs) (s : SessionState) : List Event → SessionState
  | [] => s
  | e :: tr => runFrom L (step L s e).state tr

/-- Run a sequence of interactions from the initial session. -/
def runTrace (L : Libs) (tr : List Event) : SessionState :=
  runFrom L initSession tr

/-- The forgery analysis runs successfully (reaches its session write) when
both uploads are present and both images load. -/
def forgeryRuns (L : Libs) : Event → Bool
  | .pressForgery (some o) (some u) =>
    match load_image L (some o), load_image L (some u) with
    | .ok (some _), .ok (some _) => true
    | _, _ => false
  | _ => false

/-- The signature analysis runs successfully when both uploads are present
and both images load. -/
def signatureRuns (L : Libs) : Event → Bool
  | .pressSignature (some o) (some u) =>
    match load_image L (some o), load_image L (some u) with
    | .ok (some _), .ok (some _) => true
    | _, _ => false
  | _ => false

/-- The Aadhaar extraction runs successfully when the upload is present and
the image loads. -/
def aadhaarRuns (L : Libs) : Event → Bool
  | .pressAadhaar (some a) =>
    match load_image L (some a) with
    | .ok (some _) => true
    | _ => false
  | _ => false

/-- The PAN extraction runs successfully when the upload is present and the
image loads. -/
def panRuns (L : Libs) : Event → Bool
  | .pressPan (some p) =>
    match load_image L (some p) with
    | .ok (some _) => true
    | _ => false
  | _ => false

/-- The face comparison runs successfully when both uploads are present,
both images load and the verify call returns. -/
def kycRuns (L : Libs) : Event → Bool
  | .pressKyc (some a) (some b) =>
    match load_image L (some a), load_image L (some b) with
    | .ok (some i1), .ok (some i2) =>
      match L.verify i1 i2 with
      | .ok _ => true
      | .error _ => false
    | _, _ => false
  | _ => false

/-- The transaction analysis runs successfully when the upload is present,
the CSV parses and it has an amount column. -/
def transactionsRuns (L : Libs) : Event → Bool
  | .pressTransactions (some u) =>
    match L.read_csv u.content with
    | .ok df => df.hasCol "amount"
    | .error _ => false
  | _ => false

/-- Pixel values of an image as rationals, row-major. -/
def pixels (i : Img) : List ℚ := (i.flatMap (fun r => r)).map (fun n => (n : ℚ))

/-- Mean pixel value. -/
def imgMean (i : Img) : ℚ := (pixels i).sum / (pixels i).length

/-- Covariance of two equally sized images around their means. -/
def imgCov (x y : Img) : ℚ :=
  (((pixels x).zip (pixels y)).map
    (fun p => (p.1 - imgMean x) * (p.2 - imgMean y))).sum / (pixels x).length

/-- Pixel variance. -/
def imgVar (x : Img) : ℚ := imgCov x x

/-- SSIM stabilisation constant, (0.01 times the dynamic range 255) squared. -/
def ssimC1 : ℚ := 6.5025

/-- SSIM stabilisation constant, (0.03 times the dynamic range 255) squared. -/
def ssimC2 : ℚ := 58.5225

/-- Modelled from the spec: skimage.metrics.structural_similarity is
third-party code not in src/; this is the textbook global SSIM score over
exact rationals, used to instantiate the ssim oracle in witnesses.  The SSIM
glossary entry of the spec and its identical-images round-trip property are
what this definition captures. -/
def ssimModel (x y : Img) : ℚ :=
  ((2 * imgMean x * imgMean y + ssimC1) * (2 * imgCov x y + ssimC2)) /
    ((imgMean x ^ 2 + imgMean y ^ 2 + ssimC1) * (imgVar x + imgVar y + ssimC2))

/-- A concrete library instance for witnesses: decoding is structural, the
ssim oracle is the rational SSIM model, and the fallible calls succeed. -/
def baseLibs : Libs where
  convert_from_bytes := fun b => [[b]]
  image_open := fun b => [b]
  grayResize600 := id
  grayResize300 := id
  toRGB := id
  ssim := fun a b => (ssimModel a b, a)
  readtext := fun _ => ["SAMPLE", "TEXT"]
  findAadhaar := fun _ => []
  findPan := fun _ => []
  verify := fun _ _ => .ok ⟨some (1 / 2), some true⟩
  read_csv := fun b => .ok ⟨[("amount", b.map (fun n => (n : ℚ)))]⟩
  savePdf := fun _ => .ok ()
  now := "2026-01-01 00:00:00"

/-- A library instance whose fallible calls raise, for the error-path
witnesses. -/
def errLibs : Libs :=
  { baseLibs with
    verify := fun _ _ => .error "model mismatch"
    read_csv := fun _ => .error "tokenizing data failed"
    savePdf := fun _ => .error "disk full" }

/-- A library instance whose CSV parse succeeds without an amount column. -/
def noColLibs : Libs :=
  { baseLibs with read_csv := fun _ => .ok ⟨[("value", [1, 2])]⟩ }

/-- A report data record with every analysis field still None. -/
def dAllNone : ReportData :=
  ⟨"", "", none, none, none, none, none, none, none, ""⟩

/-- A report data record whose Aadhaar text is a short concrete string. -/
def dAadhaar : ReportData :=
  ⟨"", "", none, none, some "aadhaar text", none, none, none, none, ""⟩

lemma sampleVar_nonneg (xs : List ℚ) (h : 2 ≤ xs.length) : 0 ≤ sampleVar xs := by
  unfold sampleVar
  apply div_nonneg
  · apply List.sum_nonneg
    intro x hx
    obtain ⟨a, _, rfl⟩ := List.mem_map.mp hx
    positivity
  · have h2 : (2 : ℚ) ≤ (xs.length : ℚ) := by exact_mod_cast h
    linarith

/-- The executable flag equals the real-number comparison of the amount
against mean plus three sample standard deviations, whenever at least two
rows make the standard deviation defined. -/
lemma flagged_iff_real (xs : List ℚ) (h : 2 ≤ xs.length) (a : ℚ) :
    flagged xs a = true ↔
      (sampleMean xs : ℝ) + 3 * Real.sqrt (sampleVar xs : ℝ) < (a : ℝ) := by
  have hne : xs.length ≠ 0 := by omega
  have hv : 0 ≤ sampleVar xs := sampleVar_nonneg xs h
  have hvR : (0 : ℝ) ≤ (sampleVar xs : ℝ) := by exact_mod_cast hv
  have hsq : Real.sqrt (sampleVar xs : ℝ) ^ 2 = (sampleVar xs : ℝ) := Real.sq_sqrt hvR
  have hsn : (0 : ℝ) ≤ Real.sqrt (sampleVar xs : ℝ) := Real.sqrt_nonneg _
  simp only [flagged, thresholdDefined, meanDefined, stdDefined, Bool.and_eq_true,
    decide_eq_true_eq]
  constructor
  · intro hcj
    have hm' : sampleMean xs < a := by tauto
    have hq' : 9 * sampleVar xs < (a - sampleMean xs) ^ 2 := by tauto
    have hm : (sampleMean xs : ℝ) < (a : ℝ) := by exact_mod_cast hm'
    have hqR : 9 * (sampleVar xs : ℝ) < ((a : ℝ) - (sampleMean xs : ℝ)) ^ 2 := by
      exact_mod_cast hq'
    nlinarith [hsq, hsn, sq_nonneg ((a : ℝ) - (sampleMean xs : ℝ) - 3 * Real.sqrt (sampleVar xs : ℝ)),
      sq_nonneg ((a : ℝ) - (sampleMean xs : ℝ) + 3 * Real.sqrt (sampleVar xs : ℝ))]
  · intro hlt
    have hm : (sampleMean xs : ℝ) < (a : ℝ) := by nlinarith
    have hqR : 9 * (sampleVar xs : ℝ) < ((a : ℝ) - (sampleMean xs : ℝ)) ^ 2 := by
      nlinarith [hsq, hsn]
    have hm' : sampleMean xs < a := by exact_mod_cast hm
    have hq' : 9 * sampleVar xs < (a - sampleMean xs) ^ 2 := by exact_mod_cast hqR
    tauto

/-- When fewer than two rows are present no row is ever flagged: the NaN
threshold compares false against every amount. -/
lemma flagged_of_short (xs : List ℚ) (h : xs.length < 2) (a : ℚ) :
    flagged xs a = false := by
  simp only [flagged, thresholdDefined, stdDefined, meanDefined]
  have : ¬ (2 ≤ xs.length) := by omega
  simp [this]

lemma zip_self_eq (l : List ℚ) : l.zip l = l.map (fun a => (a, a)) := by
  induction l with
  | nil => rfl
  | cons a t ih => simp [ih]

lemma imgVar_nonneg (x : Img) : 0 ≤ imgVar x := by
  unfold imgVar imgCov
  apply div_nonneg
  · rw [zip_self_eq, List.map_map]
    apply List.sum_nonneg
    intro v hv
    obtain ⟨a, _, rfl⟩ := List.mem_map.mp hv
    simp only [Function.comp_apply]
    exact mul_self_nonneg _
  · positivity

/-- The rational SSIM model scores identical images exactly 1. -/
lemma ssimModel_self (x : Img) : ssimModel x x = 1 := by
  unfold ssimModel
  have hc1 : (0 : ℚ) < ssimC1 := by norm_num [ssimC1]
  have hc2 : (0 : ℚ) < ssimC2 := by norm_num [ssimC2]
  have hv : 0 ≤ imgVar x := imgVar_nonneg x
  have hvar : imgCov x x = imgVar x := rfl
  have h1 : (0 : ℚ) < imgMean x ^ 2 + imgMean x ^ 2 + ssimC1 := by positivity
  have h2 : (0 : ℚ) < imgVar x + imgVar x + ssimC2 := by positivity
  rw [hvar]
  have hnum : (2 * imgMean x * imgMean x + ssimC1) * (2 * imgVar x + ssimC2) =
      (imgMean x ^ 2 + imgMean x ^ 2 + ssimC1) * (imgVar x + imgVar x + ssimC2) := by ring
  rw [hnum]
  exact div_self (ne_of_gt (mul_pos h1 h2))

lemma load_image_some_ne_none (L : Libs) (u : Upload) :
    load_image L (some u) ≠ Except.ok none := by
  simp only [load_image]
  split
  · rcases hc : L.convert_from_bytes u.content with _ | ⟨p, rest⟩ <;> simp
  · simp

lemma docForgery_writesOnly (L : Libs) (s : SessionState) (o u : Option Upload) :
    ∃ q, (docForgery L s o u).state = { s with forgery_score := q } := by
  rcases o with _ | o <;> rcases u with _ | u <;> simp only [docForgery] <;>
    try exact ⟨s.forgery_score, rfl⟩
  rcases h1 : load_image L (some o) with m | oi
  · exact ⟨s.forgery_score, rfl⟩
  · rcases oi with _ | i1
    · exact ⟨s.forgery_score, rfl⟩
    · rcases h2 : load_image L (some u) with m | oi2
      · exact ⟨s.forgery_score, rfl⟩
      · rcases oi2 with _ | i2
        · exact ⟨s.forgery_score, rfl⟩
        · exact ⟨some (L.ssim (L.grayResize600 i1) (L.grayResize600 i2)).1, rfl⟩

lemma verifySignature_writesOnly (L : Libs) (s : SessionState) (o u : Option Upload) :
    ∃ q, (verifySignature L s o u).state = { s with signature_score := q } := by
  rcases o with _ | o <;> rcases u with _ | u <;> simp only [verifySignature] <;>
    try exact ⟨s.signature_score, rfl⟩
  rcases h1 : load_image L (some o) with m | oi
  · exact ⟨s.signature_score, rfl⟩
  · rcases oi with _ | i1
    · exact ⟨s.signature_score, rfl⟩
    · rcases h2 : load_image L (some u) with m | oi2
      · exact ⟨s.signature_score, rfl⟩
      · rcases oi2 with _ | i2
        · exact ⟨s.signature_score, rfl⟩
        · exact ⟨some (L.ssim (L.grayResize300 i1) (L.grayResize300 i2)).1, rfl⟩

lemma extractAadhaar_writesOnly (L : Libs) (s : SessionState) (a : Option Upload) :
    ∃ t, (extractAadhaar L s a).state = { s with aadhaar_text := t } := by
  rcases a with _ | a <;> simp only [extractAadhaar]
  · exact ⟨s.aadhaar_text, rfl⟩
  · rcases h1 : load_image L (some a) with m | oi
    · exact ⟨s.aadhaar_text, rfl⟩
    · rcases oi with _ | i
      · exact ⟨s.aadhaar_text, rfl⟩
      · dsimp only
        rcases hf : L.findAadhaar (String.intercalate " " (L.readtext (L.toRGB i))) with _ | ⟨f, r⟩
        · exact ⟨some (String.intercalate " " (L.readtext (L.toRGB i))), rfl⟩
        · exact ⟨some (String.intercalate " " (L.readtext (L.toRGB i))), rfl⟩

lemma extractPan_writesOnly (L : Libs) (s : SessionState) (p : Option Upload) :
    ∃ t, (extractPan L s p).state = { s with pan_text := t } := by
  rcases p with _ | p <;> simp only [extractPan]
  · exact ⟨s.pan_text, rfl⟩
  · rcases h1 : load_image L (some p) with m | oi
    · exact ⟨s.pan_text, rfl⟩
    · rcases oi with _ | i
      · exact ⟨s.pan_text, rfl⟩
      · dsimp only
        rcases hf : L.findPan (pyUpper (String.intercalate " " (L.readtext (L.toRGB i)))) with _ | ⟨f, r⟩
        · exact ⟨some (String.intercalate " " (L.readtext (L.toRGB i))), rfl⟩
        · exact ⟨some (String.intercalate " " (L.readtext (L.toRGB i))), rfl⟩

lemma compareFaces_writesOnly (L : Libs) (s : SessionState) (a b : Option Upload) :
    ∃ d v, (compareFaces L s a b).state =
      { s with face_distance := d, face_verified := v } := by
  rcases a with _ | a <;> rcases b with _ | b <;> simp only [compareFaces] <;>
    try exact ⟨s.face_distance, s.face_verified, rfl⟩
  rcases h1 : load_image L (some a) with m | oi
  · exact ⟨s.face_distance, s.face_verified, rfl⟩
  · rcases oi with _ | i1
    · exact ⟨s.face_distance, s.face_verified, rfl⟩
    · rcases h2 : load_image L (some b) with m | oi2
      · exact ⟨s.face_distance, s.face_verified, rfl⟩
      · rcases oi2 with _ | i2
        · exact ⟨s.face_distance, s.face_verified, rfl⟩
        · dsimp only
          rcases hv : L.verify i1 i2 with m | r
          · exact ⟨s.face_distance, s.face_verified, rfl⟩
          · exact ⟨some (r.distance.getD 0), some (r.verified.getD false), rfl⟩

lemma analyzeTransactions_writesOnly (L : Libs) (s : SessionState) (t : Option Upload) :
    ∃ n, (analyzeTransactions L s t).state =
      { s with transaction_frauds_count := n } := by
  rcases t with _ | u <;> simp only [analyzeTransactions]
  · exact ⟨s.transaction_frauds_count, rfl⟩
  · rcases hr : L.read_csv u.content with m | df
    · exact ⟨s.transaction_frauds_count, rfl⟩
    · by_cases hc : df.hasCol "amount" = true
      · simp only [hc, if_true]
        exact ⟨some ((df.getCol "amount").filter
          (fun a => flagged (df.getCol "amount") a)).length, rfl⟩
      · simp only [Bool.not_eq_true] at hc
        simp only [hc, Bool.false_eq_true, if_false]
        exact ⟨s.transaction_frauds_count, rfl⟩

lemma generateReport_state (L : Libs) (s : SessionState) (c r m : String) :
    (generateReport L s c r m).state = s := by
  simp only [generateReport]
  rcases hp : L.savePdf (generate_report_pdf L.now (mkReportData s c r m)) with e | u <;> rfl

lemma docForgery_not_runs (L : Libs) (s : SessionState) (o u : Option Upload)
    (h : forgeryRuns L (.pressForgery o u) = false) :
    (docForgery L s o u).state = s := by
  rcases o with _ | o <;> rcases u with _ | u <;> simp only [docForgery] <;> try rfl
  rcases h1 : load_image L (some o) with m | oi
  · rfl
  · rcases oi with _ | i1
    · rfl
    · rcases h2 : load_image L (some u) with m | oi2
      · rfl
      · rcases oi2 with _ | i2
        · rfl
        · simp [forgeryRuns, h1, h2] at h

lemma verifySignature_not_runs (L : Libs) (s : SessionState) (o u : Option Upload)
    (h : signatureRuns L (.pressSignature o u) = false) :
    (verifySignature L s o u).state = s := by
  rcases o with _ | o <;> rcases u with _ | u <;> simp only [verifySignature] <;> try rfl
  rcases h1 : load_image L (some o) with m | oi
  · rfl
  · rcases oi with _ | i1
    · rfl
    · rcases h2 : load_image L (some u) with m | oi2
      · rfl
      · rcases oi2 with _ | i2
        · rfl
        · simp [signatureRuns, h1, h2] at h

lemma extractAadhaar_not_runs (L : Libs) (s : SessionState) (a : Option Upload)
    (h : aadhaarRuns L (.pressAadhaar a) = false) :
    (extractAadhaar L s a).state = s := by
  rcases a with _ | a <;> simp only [extractAadhaar] <;> try rfl
  rcases h1 : load_image L (some a) with m | oi
  · rfl
  · rcases oi with _ | i
    · rfl
    · simp [aadhaarRuns, h1] at h

lemma extractPan_not_runs (L : Libs) (s : SessionState) (p : Option Upload)
    (h : panRuns L (.pressPan p) = false) :
    (extractPan L s p).state = s := by
  rcases p with _ | p <;> simp only [extractPan] <;> try rfl
  rcases h1 : load_image L (some p) with m | oi
  · rfl
  · rcases oi with _ | i
    · rfl
    · simp [panRuns, h1] at h

lemma compareFaces_not_runs (L : Libs) (s : SessionState) (a b : Option Upload)
    (h : kycRuns L (.pressKyc a b) = false) :
    (compareFaces L s a b).state = s := by
  rcases a with _ | a <;> rcases b with _ | b <;> simp only [compareFaces] <;> try rfl
  rcases h1 : load_image L (some a) with m | oi
  · rfl
  · rcases oi with _ | i1
    · rfl
    · rcases h2 : load_image L (some b) with m | oi2
      · rfl
      · rcases oi2 with _ | i2
        · rfl
        · dsimp only
          rcases hv : L.verify i1 i2 with m | r
          · rfl
          · simp [kycRuns, h1, h2, hv] at h

lemma analyzeTransactions_not_runs (L : Libs) (s : SessionState) (t : Option Upload)
    (h : transactionsRuns L (.pressTransactions t) = false) :
    (analyzeTransactions L s t).state = s := by
  rcases t with _ | u <;> simp only [analyzeTransactions] <;> try rfl
  rcases hr : L.read_csv u.content with m | df
  · rfl
  · by_cases hc : df.hasCol "amount" = true
    · simp [transactionsRuns, hr, hc] at h
    · simp only [Bool.not_eq_true] at hc
      simp only [hc, Bool.false_eq_true, if_false]

lemma runFrom_preserve {α : Type} (L : Libs) (f : SessionState → α) (c : Event → Bool)
    (hstep : ∀ s e, c e = false → f (step L s e).state = f s) :
    ∀ (tr : List Event) (s : SessionState),
      (∀ e ∈ tr, c e = false) → f (runFrom L s tr) = f s := by
  intro tr
  induction tr with
  | nil => intro s _; rfl
  | cons e t ih =>
    intro s h
    rw [runFrom, ih _ (fun e' he' => h e' (List.mem_cons_of_mem _ he'))]
    exact hstep s e (h e (List.mem_cons_self _ _))

lemma step_forgery_field (L : Libs) (s : SessionState) (e : Event)
    (h : forgeryRuns L e = false) :
    (step L s e).state.forgery_score = s.forgery_score := by
  cases e with
  | pressForgery o u => exact congrArg SessionState.forgery_score (docForgery_not_runs L s o u h)
  | pressSignature o u =>
    obtain ⟨q, hq⟩ := verifySignature_writesOnly L s o u
    simp [step, hq]
  | pressAadhaar a =>
    obtain ⟨t, ht⟩ := extractAadhaar_writesOnly L s a
    simp [step, ht]
  | pressPan p =>
    obtain ⟨t, ht⟩ := extractPan_writesOnly L s p
    simp [step, ht]
  | pressKyc a b =>
    obtain ⟨d, v, hd⟩ := compareFaces_writesOnly L s a b
    simp [step, hd]
  | pressTransactions t =>
    obtain ⟨n, hn⟩ := analyzeTransactions_writesOnly L s t
    simp [step, hn]
  | pressReport c r m => exact congrArg SessionState.forgery_score (generateReport_state L s c r m)

lemma step_signature_field (L : Libs) (s : SessionState) (e : Event)
    (h : signatureRuns L e = false) :
    (step L s e).state.signature_score = s.signature_score := by
  cases e with
  | pressSignature o u => exact congrArg SessionState.signature_score (verifySignature_not_runs L s o u h)
  | pressForgery o u =>
    obtain ⟨q, hq⟩ := docForgery_writesOnly L s o u
    simp [step, hq]
  | pressAadhaar a =>
    obtain ⟨t, ht⟩ := extractAadhaar_writesOnly L s a
    simp [step, ht]
  | pressPan p =>
    obtain ⟨t, ht⟩ := extractPan_writesOnly L s p
    simp [step, ht]
  | pressKyc a b =>
    obtain ⟨d, v, hd⟩ := compareFaces_writesOnly L s a b
    simp [step, hd]
  | pressTransactions t =>
    obtain ⟨n, hn⟩ := analyzeTransactions_writesOnly L s t
    simp [step, hn]
  | pressReport c r m => exact congrArg SessionState.signature_score (generateReport_state L s c r m)

lemma step_aadhaar_field (L : Libs) (s : SessionState) (e : Event)
    (h : aadhaarRuns L e = false) :
    (step L s e).state.aadhaar_text = s.aadhaar_text := by
  cases e with
  | pressAadhaar a => exact congrArg SessionState.aadhaar_text (extractAadhaar_not_runs L s a h)
  | pressForgery o u =>
    obtain ⟨q, hq⟩ := docForgery_writesOnly L s o u
    simp [step, hq]
  | pressSignature o u =>
    obtain ⟨q, hq⟩ := verifySignature_writesOnly L s o u
    simp [step, hq]
  | pressPan p =>
    obtain ⟨t, ht⟩ := extractPan_writesOnly L s p
    simp [step, ht]
  | pressKyc a b =>
    obtain ⟨d, v, hd⟩ := compareFaces_writesOnly L s a b
    simp [step, hd]
  | pressTransactions t =>
    obtain ⟨n, hn⟩ := analyzeTransactions_writesOnly L s t
    simp [step, hn]
  | pressReport c r m => exact congrArg SessionState.aadhaar_text (generateReport_state L s c r m)

lemma step_pan_field (L : Libs) (s : SessionState) (e : Event)
    (h : panRuns L e = false) :
    (step L s e).state.pan_text = s.pan_text := by
  cases e with
  | pressPan p => exact congrArg SessionState.pan_text (extractPan_not_runs L s p h)
  | pressForgery o u =>
    obtain ⟨q, hq⟩ := docForgery_writesOnly L s o u
    simp [step, hq]
  | pressSignature o u =>
    obtain ⟨q, hq⟩ := verifySignature_writesOnly L s o u
    simp [step, hq]
  | pressAadhaar a =>
    obtain ⟨t, ht⟩ := extractAadhaar_writesOnly L s a
    simp [step, ht]
  | pressKyc a b =>
    obtain ⟨d, v, hd⟩ := compareFaces_writesOnly L s a b
    simp [step, hd]
  | pressTransactions t =>
    obtain ⟨n, hn⟩ := analyzeTransactions_writesOnly L s t
    simp [step, hn]
  | pressReport c r m => exact congrArg SessionState.pan_text (generateReport_state L s c r m)

lemma step_face_fields (L : Libs) (s : SessionState) (e : Event)
    (h : kycRuns L e = false) :
    (step L s e).state.face_distance = s.face_distance ∧
      (step L s e).state.face_verified = s.face_verified := by
  cases e with
  | pressKyc a b =>
    have hs := compareFaces_not_runs L s a b h
    exact ⟨congrArg SessionState.face_distance hs, congrArg SessionState.face_verified hs⟩
  | pressForgery o u =>
    obtain ⟨q, hq⟩ := docForgery_writesOnly L s o u
    constructor <;> simp [step, hq]
  | pressSignature o u =>
    obtain ⟨q, hq⟩ := verifySignature_writesOnly L s o u
    constructor <;> simp [step, hq]
  | pressAadhaar a =>
    obtain ⟨t, ht⟩ := extractAadhaar_writesOnly L s a
    constructor <;> simp [step, ht]
  | pressPan p =>
    obtain ⟨t, ht⟩ := extractPan_writesOnly L s p
    constructor <;> simp [step, ht]
  | pressTransactions t =>
    obtain ⟨n, hn⟩ := analyzeTransactions_writesOnly L s t
    constructor <;> simp [step, hn]
  | pressReport c r m =>
    have hs := generateReport_state L s c r m
    exact ⟨congrArg SessionState.face_distance hs, congrArg SessionState.face_verified hs⟩

lemma step_transactions_field (L : Libs) (s : SessionState) (e : Event)
    (h : transactionsRuns L e = false) :
    (step L s e).state.transaction_frauds_count = s.transaction_frauds_count := by
  cases e with
  | pressTransactions t =>
    exact congrArg SessionState.transaction_frauds_count (analyzeTransactions_not_runs L s t h)
  | pressForgery o u =>
    obtain ⟨q, hq⟩ := docForgery_writesOnly L s o u
    simp [step, hq]
  | pressSignature o u =>
    obtain ⟨q, hq⟩ := verifySignature_writesOnly L s o u
    simp [step, hq]
  | pressAadhaar a =>
    obtain ⟨t, ht⟩ := extractAadhaar_writesOnly L s a
    simp [step, ht]
  | pressPan p =>
    obtain ⟨t, ht⟩ := extractPan_writesOnly L s p
    simp [step, ht]
  | pressKyc a b =>
    obtain ⟨d, v, hd⟩ := compareFaces_writesOnly L s a b
    simp [step, hd]
  | pressReport c r m =>
    exact congrArg SessionState.transaction_frauds_count (generateReport_state L s c r m)

lemma docForgery_msgs_indep (L : Libs) (s₁ s₂ : SessionState) (o u : Option Upload) :
    (docForgery L s₁ o u).msgs = (docForgery L s₂ o u).msgs := by
  rcases o with _ | o <;> rcases u with _ | u <;> simp only [docForgery] <;> try rfl
  rcases h1 : load_image L (some o) with m | oi
  · rfl
  · rcases oi with _ | i1
    · rfl
    · rcases h2 : load_image L (some u) with m | oi2
      · rfl
      · rcases oi2 with _ | i2 <;> rfl

lemma verifySignature_msgs_indep (L : Libs) (s₁ s₂ : SessionState) (o u : Option Upload) :
    (verifySignature L s₁ o u).msgs = (verifySignature L s₂ o u).msgs := by
  rcases o with _ | o <;> rcases u with _ | u <;> simp only [verifySignature] <;> try rfl
  rcases h1 : load_image L (some o) with m | oi
  · rfl
  · rcases oi with _ | i1
    · rfl
    · rcases h2 : load_image L (some u) with m | oi2
      · rfl
      · rcases oi2 with _ | i2 <;> rfl

lemma extractAadhaar_msgs_indep (L : Libs) (s₁ s₂ : SessionState) (a : Option Upload) :
    (extractAadhaar L s₁ a).msgs = (extractAadhaar L s₂ a).msgs := by
  rcases a with _ | a <;> simp only [extractAadhaar] <;> try rfl
  rcases h1 : load_image L (some a) with m | oi
  · rfl
  · rcases oi with _ | i
    · rfl
    · dsimp only
      rcases hf : L.findAadhaar (String.intercalate " " (L.readtext (L.toRGB i))) with _ | ⟨f, r⟩ <;> rfl

lemma extractPan_msgs_indep (L : Libs) (s₁ s₂ : SessionState) (p : Option Upload) :
    (extractPan L s₁ p).msgs = (extractPan L s₂ p).msgs := by
  rcases p with _ | p <;> simp only [extractPan] <;> try rfl
  rcases h1 : load_image L (some p) with m | oi
  · rfl
  · rcases oi with _ | i
    · rfl
    · dsimp only
      rcases hf : L.findPan (pyUpper (String.intercalate " " (L.readtext (L.toRGB i)))) with _ | ⟨f, r⟩ <;> rfl

lemma compareFaces_msgs_indep (L : Libs) (s₁ s₂ : SessionState) (a b : Option Upload) :
    (compareFaces L s₁ a b).msgs = (compareFaces L s₂ a b).msgs := by
  rcases a with _ | a <;> rcases b with _ | b <;> simp only [compareFaces] <;> try rfl
  rcases h1 : load_image L (some a) with m | oi
  · rfl
  · rcases oi with _ | i1
    · rfl
    · rcases h2 : load_image L (some b) with m | oi2
      · rfl
      · rcases oi2 with _ | i2
        · rfl
        · dsimp only
          rcases hv : L.verify i1 i2 with m | r <;> rfl

lemma analyzeTransactions_msgs_indep (L : Libs) (s₁ s₂ : SessionState) (t : Option Upload) :
    (analyzeTransactions L s₁ t).msgs = (analyzeTransactions L s₂ t).msgs := by
  rcases t with _ | u <;> simp only [analyzeTransactions] <;> try rfl
  rcases hr : L.read_csv u.content with m | df
  · rfl
  · by_cases hc : df.hasCol "amount" = true
    · simp only [hc, if_true]
    · simp only [Bool.not_eq_true] at hc
      simp only [hc, Bool.false_eq_true, if_false]

/-- C1: for every CSV with an amount column whose sample standard deviation
is defined (at least two rows), a transaction row is flagged as potential
fraud iff its amount is strictly greater than the mean of the amount column
plus 3 times its sample standard deviation, and the stored
transaction_frauds_count equals the number of rows so flagged. -/
theorem transactions_flag_iff_mean_add_3std (L : Libs) (s : SessionState) (u : Upload)
    (df : Csv) (hread : L.read_csv u.content = Except.ok df)
    (hcol : df.hasCol "amount" = true)
    (h2 : 2 ≤ (df.getCol "amount").length) :
    (analyzeTransactions L s (some u)).state.transaction_frauds_count =
      some (((df.getCol "amount").filter
        (fun a => flagged (df.getCol "amount") a)).length) ∧
    ∀ a : ℚ, flagged (df.getCol "amount") a = true ↔
      (sampleMean (df.getCol "amount") : ℝ) +
        3 * Real.sqrt (sampleVar (df.getCol "amount") : ℝ) < (a : ℝ) := by
  constructor
  · simp [analyzeTransactions, hread, hcol]
  · exact fun a => flagged_iff_real _ h2 a

theorem transactions_flag_iff_mean_add_3std_witness :
    baseLibs.read_csv (Upload.mk "txns.csv" [0, 0, 0, 3]).content =
        Except.ok (Csv.mk [("amount", [0, 0, 0, 3])]) ∧
    (Csv.mk [("amount", [0, 0, 0, 3])]).hasCol "amount" = true ∧
    2 ≤ ((Csv.mk [("amount", [0, 0, 0, 3])]).getCol "amount").length ∧
    ((analyzeTransactions baseLibs initSession
        (some (Upload.mk "txns.csv" [0, 0, 0, 3]))).state.transaction_frauds_count =
      some ((((Csv.mk [("amount", [0, 0, 0, 3])]).getCol "amount").filter
        (fun a => flagged ((Csv.mk [("amount", [0, 0, 0, 3])]).getCol "amount") a)).length) ∧
      ∀ a : ℚ, flagged ((Csv.mk [("amount", [0, 0, 0, 3])]).getCol "amount") a = true ↔
        (sampleMean ((Csv.mk [("amount", [0, 0, 0, 3])]).getCol "amount") : ℝ) +
          3 * Real.sqrt (sampleVar ((Csv.mk [("amount", [0, 0, 0, 3])]).getCol "amount") : ℝ)
            < (a : ℝ)) :=
  ⟨by decide, by decide, by decide,
    transactions_flag_iff_mean_add_3std baseLibs initSession _ _
      (by decide) (by decide) (by decide)⟩

/-- C10: for every CSV with an amount column of fewer than two rows, the
sample standard deviation and hence the threshold mean plus 3 std are NaN
(undefined), no row compares greater than the NaN threshold, and the stored
transaction_frauds_count is 0. -/
theorem small_sample_nan_zero_count (L : Libs) (s : SessionState) (u : Upload) (df : Csv)
    (hread : L.read_csv u.content = Except.ok df)
    (hcol : df.hasCol "amount" = true)
    (hlen : (df.getCol "amount").length < 2) :
    stdDefined (df.getCol "amount") = false ∧
    thresholdDefined (df.getCol "amount") = false ∧
    (∀ a : ℚ, flagged (df.getCol "amount") a = false) ∧
    (analyzeTransactions L s (some u)).state.transaction_frauds_count = some 0 := by
  have hstd : stdDefined (df.getCol "amount") = false := by
    simp only [stdDefined, decide_eq_false_iff_not]
    omega
  have hfil : (df.getCol "amount").filter (fun a => flagged (df.getCol "amount") a) = [] := by
    rw [List.filter_eq_nil_iff]
    intro a _
    simp [flagged_of_short _ hlen a]
  refine ⟨hstd, by simp [thresholdDefined, hstd], fun a => flagged_of_short _ hlen a, ?_⟩
  simp [analyzeTransactions, hread, hcol, hfil]

theorem small_sample_nan_zero_count_witness :
    baseLibs.read_csv (Upload.mk "one.csv" [5]).content =
        Except.ok (Csv.mk [("amount", [5])]) ∧
    (Csv.mk [("amount", [5])]).hasCol "amount" = true ∧
    ((Csv.mk [("amount", [5])]).getCol "amount").length < 2 ∧
    (stdDefined ((Csv.mk [("amount", [5])]).getCol "amount") = false ∧
      thresholdDefined ((Csv.mk [("amount", [5])]).getCol "amount") = false ∧
      (∀ a : ℚ, flagged ((Csv.mk [("amount", [5])]).getCol "amount") a = false) ∧
      (analyzeTransactions baseLibs initSession
        (some (Upload.mk "one.csv" [5]))).state.transaction_frauds_count = some 0) :=
  ⟨by decide, by decide, by decide,
    small_sample_nan_zero_count baseLibs initSession _ _ (by decide) (by decide) (by decide)⟩

/-- C5: for every CSV that parses but has no amount column, the transaction
tab shows the warning after the dataframe preview, computes no threshold or
count, raises nothing, and leaves the whole session unchanged. -/
theorem missing_amount_column_warning (L : Libs) (s : SessionState) (u : Upload) (df : Csv)
    (hread : L.read_csv u.content = Except.ok df)
    (hcol : df.hasCol "amount" = false) :
    analyzeTransactions L s (some u) =
      ⟨s, [UIMsg.headPreview,
        UIMsg.warningMsg "CSV must have \x27amount\x27 column."], none⟩ := by
  simp [analyzeTransactions, hread, hcol]

theorem missing_amount_column_warning_witness :
    noColLibs.read_csv (Upload.mk "v.csv" [1]).content =
        Except.ok (Csv.mk [("value", [1, 2])]) ∧
    (Csv.mk [("value", [1, 2])]).hasCol "amount" = false ∧
    analyzeTransactions noColLibs initSession (some (Upload.mk "v.csv" [1])) =
      ⟨initSession, [UIMsg.headPreview,
        UIMsg.warningMsg "CSV must have \x27amount\x27 column."], none⟩ :=
  ⟨by decide, by decide,
    missing_amount_column_warning noColLibs initSession (Upload.mk "v.csv" [1])
      (Csv.mk [("value", [1, 2])]) (by decide) (by decide)⟩

/-- C4: a raising face verification, CSV parse or PDF output is caught and
shown as an inline error message; nothing propagates (exn is none) and the
session fields the operation would have written are unchanged. -/
theorem library_exception_caught (L : Libs) (s : SessionState) :
    (∀ (u1 u2 : Upload) (i1 i2 : Img) (m : String),
      load_image L (some u1) = Except.ok (some i1) →
      load_image L (some u2) = Except.ok (some i2) →
      L.verify i1 i2 = Except.error m →
      compareFaces L s (some u1) (some u2) =
        ⟨s, [UIMsg.errorMsg ("Face verification error: " ++ m)], none⟩) ∧
    (∀ (u : Upload) (m : String), L.read_csv u.content = Except.error m →
      analyzeTransactions L s (some u) =
        ⟨s, [UIMsg.errorMsg ("CSV read error: " ++ m)], none⟩) ∧
    (∀ (c r rem m : String),
      L.savePdf (generate_report_pdf L.now (mkReportData s c r rem)) = Except.error m →
      generateReport L s c r rem =
        ⟨s, [UIMsg.errorMsg ("PDF generation error: " ++ m)], none⟩) := by
  refine ⟨?_, ?_, ?_⟩
  · intro u1 u2 i1 i2 m h1 h2 hv
    simp [compareFaces, h1, h2, hv]
  · intro u m hr
    simp [analyzeTransactions, hr]
  · intro c r rem m hp
    simp [generateReport, hp]

theorem library_exception_caught_witness :
    errLibs.verify [[1]] [[1]] = Except.error "model mismatch" ∧
    compareFaces errLibs initSession (some (Upload.mk "a.png" [1])) (some (Upload.mk "b.png" [1])) =
      ⟨initSession, [UIMsg.errorMsg ("Face verification error: " ++ "model mismatch")], none⟩ ∧
    errLibs.read_csv (Upload.mk "t.csv" [2]).content = Except.error "tokenizing data failed" ∧
    analyzeTransactions errLibs initSession (some (Upload.mk "t.csv" [2])) =
      ⟨initSession, [UIMsg.errorMsg ("CSV read error: " ++ "tokenizing data failed")], none⟩ ∧
    generateReport errLibs initSession "c" "r" "m" =
      ⟨initSession, [UIMsg.errorMsg ("PDF generation error: " ++ "disk full")], none⟩ :=
  ⟨rfl,
    (library_exception_caught errLibs initSession).1 _ _ [[1]] [[1]] _
      (by decide) (by decide) rfl,
    rfl,
    (library_exception_caught errLibs initSession).2.1 _ _ rfl,
    (library_exception_caught errLibs initSession).2.2 "c" "r" "m" "disk full" rfl⟩

/-- C3: for every tab, pressing the analyze button with a required upload
missing shows exactly the inline error message of that tab, performs no
analysis, raises nothing, and leaves the session unchanged. -/
theorem missing_upload_error_atomic (L : Libs) (s : SessionState) :
    (∀ u, docForgery L s none u =
      ⟨s, [UIMsg.errorMsg "Please upload both files."], none⟩) ∧
    (∀ o, docForgery L s (some o) none =
      ⟨s, [UIMsg.errorMsg "Please upload both files."], none⟩) ∧
    (∀ u, verifySignature L s none u =
      ⟨s, [UIMsg.errorMsg "Upload both signatures."], none⟩) ∧
    (∀ o, verifySignature L s (some o) none =
      ⟨s, [UIMsg.errorMsg "Upload both signatures."], none⟩) ∧
    (extractAadhaar L s none = ⟨s, [UIMsg.errorMsg "Upload Aadhaar file."], none⟩) ∧
    (extractPan L s none = ⟨s, [UIMsg.errorMsg "Upload PAN file."], none⟩) ∧
    (∀ u, compareFaces L s none u =
      ⟨s, [UIMsg.errorMsg "Please upload both ID and live photos."], none⟩) ∧
    (∀ o, compareFaces L s (some o) none =
      ⟨s, [UIMsg.errorMsg "Please upload both ID and live photos."], none⟩) ∧
    (analyzeTransactions L s none = ⟨s, [UIMsg.errorMsg "Upload CSV."], none⟩) := by
  refine ⟨?_, ?_, ?_, ?_, rfl, rfl, ?_, ?_, rfl⟩
  · intro u; rcases u with _ | u <;> rfl
  · intro o; rfl
  · intro u; rcases u with _ | u <;> rfl
  · intro o; rfl
  · intro u; rcases u with _ | u <;> rfl
  · intro o; rfl

/-- C6: when both uploads decode to the same image and the ssim oracle obeys
the SSIM identity law (identical inputs score exactly 1), the forgery tab
stores forgery_score 1 and, 1 being greater than 0.9, reports that no
forgery was detected. -/
theorem identical_images_score_one (L : Libs) (s : SessionState) (u1 u2 : Upload) (i : Img)
    (hssim : (L.ssim (L.grayResize600 i) (L.grayResize600 i)).1 = 1)
    (h1 : load_image L (some u1) = Except.ok (some i))
    (h2 : load_image L (some u2) = Except.ok (some i)) :
    docForgery L s (some u1) (some u2) =
      ⟨{ s with forgery_score := some 1 },
        [UIMsg.writeVal "Similarity Score" 1, UIMsg.successMsg "No forgery detected.",
          UIMsg.imageMsg], none⟩ ∧
    (0.9 : ℚ) < 1 := by
  refine ⟨?_, by norm_num⟩
  simp only [docForgery, h1, h2, hssim]
  rw [if_pos (by norm_num : (0.9 : ℚ) < 1)]
  rfl

theorem identical_images_score_one_witness :
    (baseLibs.ssim (baseLibs.grayResize600 [[3]]) (baseLibs.grayResize600 [[3]])).1 = 1 ∧
    load_image baseLibs (some (Upload.mk "o.png" [3])) = Except.ok (some [[3]]) ∧
    load_image baseLibs (some (Upload.mk "s.png" [3])) = Except.ok (some [[3]]) ∧
    (docForgery baseLibs initSession (some (Upload.mk "o.png" [3]))
        (some (Upload.mk "s.png" [3])) =
      ⟨{ initSession with forgery_score := some 1 },
        [UIMsg.writeVal "Similarity Score" 1, UIMsg.successMsg "No forgery detected.",
          UIMsg.imageMsg], none⟩ ∧
      (0.9 : ℚ) < 1) :=
  ⟨ssimModel_self [[3]], by decide, by decide,
    identical_images_score_one baseLibs initSession _ _ [[3]]
      (ssimModel_self [[3]]) (by decide) (by decide)⟩

/-- C8: load_image keeps only the first page of a converted PDF (every later
page is discarded), and it returns None exactly when its input is None. -/
theorem load_image_first_page (L : Libs) :
    load_image L none = Except.ok none ∧
    (∀ (u : Upload) (p : Img) (rest : List Img), endsWithPdf u.name = true →
      L.convert_from_bytes u.content = p :: rest →
      load_image L (some u) = Except.ok (some p)) ∧
    (∀ u : Upload, load_image L (some u) ≠ Except.ok none) := by
  refine ⟨rfl, ?_, fun u => load_image_some_ne_none L u⟩
  intro u p rest hpdf hconv
  simp [load_image, hpdf, hconv]

theorem load_image_first_page_witness :
    endsWithPdf (Upload.mk "Doc.PDF" [7]).name = true ∧
    baseLibs.convert_from_bytes (Upload.mk "Doc.PDF" [7]).content = [[7]] :: [] ∧
    load_image baseLibs (some (Upload.mk "Doc.PDF" [7])) = Except.ok (some [[7]]) :=
  ⟨by decide, rfl,
    (load_image_first_page baseLibs).2.1 (Upload.mk "Doc.PDF" [7]) [[7]] []
      (by decide) rfl⟩

/-- C9: in the generated report, the line following the Aadhaar OCR title is
the first 200 characters of the stored text with newlines replaced by spaces
and three dots appended unconditionally; and slicing to 200 characters
returns the whole string whenever it is 200 characters or shorter, so the
dots are appended even then. -/
theorem report_string_truncation (now : String) (d : ReportData) (s : String)
    (h : d.aadhaar_text = some s) :
    (generate_report_pdf now d)[(headerLines now d).length + 4]? = some "Aadhaar OCR" ∧
    (generate_report_pdf now d)[(headerLines now d).length + 5]? =
      some (pyReplaceNl (pyTake s 200) ++ "...") ∧
    (∀ t : String, t.data.length ≤ 200 → pyTake t 200 = t) := by
  have hsec : sectionLines d =
      ["Document Forgery", renderVal (RVal.ofNum d.forgery_score),
       "Signature Verification", renderVal (RVal.ofNum d.signature_score),
       "Aadhaar OCR", renderVal (RVal.ofStr d.aadhaar_text),
       "PAN OCR", renderVal (RVal.ofStr d.pan_text),
       "KYC Face Match", renderVal (RVal.ofNum d.face_distance),
       "Transaction Summary", renderVal (RVal.ofNat d.transaction_frauds_count)] := rfl
  refine ⟨?_, ?_, ?_⟩
  · rw [generate_report_pdf, List.append_assoc, List.append_assoc,
      List.getElem?_append_right (Nat.le_add_right _ 4), Nat.add_sub_cancel_left, hsec]
    rfl
  · rw [generate_report_pdf, List.append_assoc, List.append_assoc,
      List.getElem?_append_right (Nat.le_add_right _ 5), Nat.add_sub_cancel_left, hsec, h]
    rfl
  · intro t ht
    unfold pyTake
    rw [List.take_of_length_le ht]

theorem report_string_truncation_witness :
    dAadhaar.aadhaar_text = some "aadhaar text" ∧
    ((generate_report_pdf "now" dAadhaar)[(headerLines "now" dAadhaar).length + 4]? =
        some "Aadhaar OCR" ∧
      (generate_report_pdf "now" dAadhaar)[(headerLines "now" dAadhaar).length + 5]? =
        some (pyReplaceNl (pyTake "aadhaar text" 200) ++ "...") ∧
      (∀ t : String, t.data.length ≤ 200 → pyTake t 200 = t)) :=
  ⟨rfl, report_string_truncation "now" dAadhaar "aadhaar text" rfl⟩

/-- C7: the report has a fixed layout: the six section titles appear in the
fixed order, followed by the Remarks heading, and every section whose value
is None renders the text Not analyzed on the line after its title. -/
theorem report_fixed_layout (now : String) (d : ReportData) :
    (sectionPairs d).map Prod.fst =
      ["Document Forgery", "Signature Verification", "Aadhaar OCR", "PAN OCR",
       "KYC Face Match", "Transaction Summary"] ∧
    List.Sublist
      ["Document Forgery", "Signature Verification", "Aadhaar OCR", "PAN OCR",
       "KYC Face Match", "Transaction Summary", "Remarks"]
      (generate_report_pdf now d) ∧
    (d.forgery_score = none → (sectionLines d)[1]? = some "Not analyzed") ∧
    (d.signature_score = none → (sectionLines d)[3]? = some "Not analyzed") ∧
    (d.aadhaar_text = none → (sectionLines d)[5]? = some "Not analyzed") ∧
    (d.pan_text = none → (sectionLines d)[7]? = some "Not analyzed") ∧
    (d.face_distance = none → (sectionLines d)[9]? = some "Not analyzed") ∧
    (d.transaction_frauds_count = none → (sectionLines d)[11]? = some "Not analyzed") := by
  have hsec : sectionLines d =
      ["Document Forgery", renderVal (RVal.ofNum d.forgery_score),
       "Signature Verification", renderVal (RVal.ofNum d.signature_score),
       "Aadhaar OCR", renderVal (RVal.ofStr d.aadhaar_text),
       "PAN OCR", renderVal (RVal.ofStr d.pan_text),
       "KYC Face Match", renderVal (RVal.ofNum d.face_distance),
       "Transaction Summary", renderVal (RVal.ofNat d.transaction_frauds_count)] := rfl
  refine ⟨rfl, ?_, ?_, ?_, ?_, ?_, ?_, ?_⟩
  · rw [generate_report_pdf, List.append_assoc, List.append_assoc, hsec]
    refine List.Sublist.trans ?_ (List.sublist_append_right (headerLines now d) _)
    exact .cons₂ _ (.cons _ (.cons₂ _ (.cons _ (.cons₂ _ (.cons _ (.cons₂ _ (.cons _
      (.cons₂ _ (.cons _ (.cons₂ _ (.cons _ (.cons₂ _ (List.nil_sublist _)))))))))))))
  · intro hn; rw [hsec, hn]; rfl
  · intro hn; rw [hsec, hn]; rfl
  · intro hn; rw [hsec, hn]; rfl
  · intro hn; rw [hsec, hn]; rfl
  · intro hn; rw [hsec, hn]; rfl
  · intro hn; rw [hsec, hn]; rfl

theorem report_fixed_layout_witness :
    dAllNone.forgery_score = none ∧
    dAllNone.transaction_frauds_count = none ∧
    ((sectionLines dAllNone)[1]? = some "Not analyzed" ∧
      (sectionLines dAllNone)[11]? = some "Not analyzed") :=
  ⟨rfl, rfl,
    (report_fixed_layout "t" dAllNone).2.2.1 rfl,
    (report_fixed_layout "t" dAllNone).2.2.2.2.2.2.2 rfl⟩

/-- C2: every session field starts as None and stays None along any trace of
interactions in which its own analysis never runs successfully; each tab
writes only its own field or fields (the report writes none); and no tab
reads a session field of another tab: tab messages are independent of the
session, the session being read only when the report is assembled. -/
theorem session_fields_none_until_own_tab (L : Libs) :
    (initSession.forgery_score = none ∧ initSession.signature_score = none ∧
      initSession.aadhaar_text = none ∧ initSession.pan_text = none ∧
      initSession.face_distance = none ∧ initSession.face_verified = none ∧
      initSession.transaction_frauds_count = none) ∧
    (∀ s o u, ∃ q, (docForgery L s o u).state = { s with forgery_score := q }) ∧
    (∀ s o u, ∃ q, (verifySignature L s o u).state = { s with signature_score := q }) ∧
    (∀ s a, ∃ t, (extractAadhaar L s a).state = { s with aadhaar_text := t }) ∧
    (∀ s p, ∃ t, (extractPan L s p).state = { s with pan_text := t }) ∧
    (∀ s a b, ∃ dq v, (compareFaces L s a b).state =
      { s with face_distance := dq, face_verified := v }) ∧
    (∀ s t, ∃ n, (analyzeTransactions L s t).state =
      { s with transaction_frauds_count := n }) ∧
    (∀ s c r m, (generateReport L s c r m).state = s) ∧
    (∀ s₁ s₂ o u, (docForgery L s₁ o u).msgs = (docForgery L s₂ o u).msgs) ∧
    (∀ s₁ s₂ o u, (verifySignature L s₁ o u).msgs = (verifySignature L s₂ o u).msgs) ∧
    (∀ s₁ s₂ a, (extractAadhaar L s₁ a).msgs = (extractAadhaar L s₂ a).msgs) ∧
    (∀ s₁ s₂ p, (extractPan L s₁ p).msgs = (extractPan L s₂ p).msgs) ∧
    (∀ s₁ s₂ a b, (compareFaces L s₁ a b).msgs = (compareFaces L s₂ a b).msgs) ∧
    (∀ s₁ s₂ t, (analyzeTransactions L s₁ t).msgs = (analyzeTransactions L s₂ t).msgs) ∧
    (∀ tr, (∀ e ∈ tr, forgeryRuns L e = false) →
      (runTrace L tr).forgery_score = none) ∧
    (∀ tr, (∀ e ∈ tr, signatureRuns L e = false) →
      (runTrace L tr).signature_score = none) ∧
    (∀ tr, (∀ e ∈ tr, aadhaarRuns L e = false) →
      (runTrace L tr).aadhaar_text = none) ∧
    (∀ tr, (∀ e ∈ tr, panRuns L e = false) →
      (runTrace L tr).pan_text = none) ∧
    (∀ tr, (∀ e ∈ tr, kycRuns L e = false) →
      (runTrace L tr).face_distance = none ∧ (runTrace L tr).face_verified = none) ∧
    (∀ tr, (∀ e ∈ tr, transactionsRuns L e = false) →
      (runTrace L tr).transaction_frauds_count = none) := by
  refine ⟨⟨rfl, rfl, rfl, rfl, rfl, rfl, rfl⟩,
    fun s o u => docForgery_writesOnly L s o u,
    fun s o u => verifySignature_writesOnly L s o u,
    fun s a => extractAadhaar_writesOnly L s a,
    fun s p => extractPan_writesOnly L s p,
    fun s a b => compareFaces_writesOnly L s a b,
    fun s t => analyzeTransactions_writesOnly L s t,
    fun s c r m => generateReport_state L s c r m,
    fun s₁ s₂ o u => docForgery_msgs_indep L s₁ s₂ o u,
    fun s₁ s₂ o u => verifySignature_msgs_indep L s₁ s₂ o u,
    fun s₁ s₂ a => extractAadhaar_msgs_indep L s₁ s₂ a,
    fun s₁ s₂ p => extractPan_msgs_indep L s₁ s₂ p,
    fun s₁ s₂ a b => compareFaces_msgs_indep L s₁ s₂ a b,
    fun s₁ s₂ t => analyzeTransactions_msgs_indep L s₁ s₂ t,
    fun tr h => runFrom_preserve L (fun s => s.forgery_score) (forgeryRuns L)
      (fun s e he => step_forgery_field L s e he) tr initSession h,
    fun tr h => runFrom_preserve L (fun s => s.signature_score) (signatureRuns L)
      (fun s e he => step_signature_field L s e he) tr initSession h,
    fun tr h => runFrom_preserve L (fun s => s.aadhaar_text) (aadhaarRuns L)
      (fun s e he => step_aadhaar_field L s e he) tr initSession h,
    fun tr h => runFrom_preserve L (fun s => s.pan_text) (panRuns L)
      (fun s e he => step_pan_field L s e he) tr initSession h,
    fun tr h =>
      ⟨runFrom_preserve L (fun s => s.face_distance) (kycRuns L)
        (fun s e he => (step_face_fields L s e he).1) tr initSession h,
       runFrom_preserve L (fun s => s.face_verified) (kycRuns L)
        (fun s e he => (step_face_fields L s e he).2) tr initSession h⟩,
    fun tr h => runFrom_preserve L (fun s => s.transaction_frauds_count) (transactionsRuns L)
      (fun s e he => step_transactions_field L s e he) tr initSession h⟩

theorem session_fields_none_until_own_tab_witness :
    (runTrace baseLibs [Event.pressReport "c" "r" "m", Event.pressForgery none none,
        Event.pressTransactions none]).forgery_score = none ∧
    (runTrace baseLibs [Event.pressReport "c" "r" "m", Event.pressForgery none none,
        Event.pressTransactions none]).transaction_frauds_count = none := by
  obtain ⟨-, -, -, -, -, -, -, -, -, -, -, -, -, -, hforg, -, -, -, -, htxn⟩ :=
    session_fields_none_until_own_tab baseLibs
  refine ⟨hforg _ ?_, htxn _ ?_⟩ <;>
    · intro e he
      simp only [List.mem_cons, List.mem_singleton, List.not_mem_nil, or_false] at he
      rcases he with h | h | h <;> (rw [h]; rfl)

end FG
